import Mathlib

/-!
Shallow embedding of `freee_kintai.py`, a single-file CLI client for an
attendance-tracking REST API.  Python values that the script manipulates are
modelled by the `Json` type; Python dict operations, truthiness, `int()`
parsing, list indexing and `str.replace` are modelled by executable Lean
functions; `datetime.fromisoformat` / `strftime` are modelled by a validating
parser over character lists.  Each command of the script becomes a pure
function from its external inputs (loaded config/token documents, the HTTP
responses the network would return, interactive input strings, the current
local date) to an `Outcome` paired with the ordered trace of observable
effects (HTTP requests with their parameters, file writes, printed lines).
-/

namespace FreeeKintai

/-- JSON values, as produced by `json.load` / `requests.Response.json`.
Numbers are modelled as integers (the script only ever handles ids and
limits).  Objects are association lists in document order. -/
inductive Json where
  | null : Json
  | bool : Bool → Json
  | num : Int → Json
  | str : String → Json
  | arr : List Json → Json
  | obj : List (String × Json) → Json

/-- First binding of a key in an object's field list (Python dict lookup;
`json.load` never produces duplicate keys). -/
def lookup (fs : List (String × Json)) (k : String) : Option Json :=
  (fs.find? (fun p => p.1 == k)).map Prod.snd

/-- Python `d[k] = v` on a dict: replace in place if the key is present,
otherwise append (insertion order is preserved, as for Python dicts). -/
def setKey (fs : List (String × Json)) (k : String) (v : Json) : List (String × Json) :=
  if fs.any (fun p => p.1 == k) then
    fs.map (fun p => if p.1 == k then (k, v) else p)
  else fs ++ [(k, v)]

/-- Python truthiness of the modelled values. -/
def Json.truthy : Json → Bool
  | .null => false
  | .bool b => b
  | .num n => n != 0
  | .str s => s != ""
  | .arr xs => !xs.isEmpty
  | .obj fs => !fs.isEmpty

/-- Truthiness of an optional value (`dict.get` returns `None` when the key
is absent, and `None` is falsy). -/
def optTruthy : Option Json → Bool
  | none => false
  | some j => j.truthy

/-- Python `d.get(k)`: `none` in the outer `Option` models the
`AttributeError` raised when the receiver is not a dict. -/
def Json.getOpt : Json → String → Option (Option Json)
  | .obj fs, k => some (lookup fs k)
  | _, _ => none

/-- Python `d[k]` with a string key: `none` models the uncaught `KeyError`
(key absent) or `TypeError` (receiver not a dict). -/
def Json.subscript : Json → String → Option Json
  | .obj fs, k => lookup fs k
  | _, _ => none

/-- Python iteration `for x in v`: lists yield elements, strings yield
1-character strings, dicts yield their keys; other values raise
(`TypeError`), modelled by `none`. -/
def iterate : Json → Option (List Json)
  | .arr xs => some xs
  | .str s => some (s.toList.map fun c => .str (String.mk [c]))
  | .obj fs => some (fs.map fun p => .str p.1)
  | _ => none

/-- Apostrophe character (used by the Python `repr` of strings). -/
def squote : Char := '\x27'

/-- One escaped character of a Python string `repr` with quote
character `q` (backslash, the quote, and common control characters;
other characters are rendered verbatim). -/
def pyEscape (q c : Char) : String :=
  if c = '\\' then "\\\\"
  else if c = q then "\\" ++ String.mk [q]
  else if c = '\x0a' then "\\n"
  else if c = '\x0d' then "\\r"
  else if c = '\x09' then "\\t"
  else String.mk [c]

/-- Python `repr` of a `str`: single quotes preferred, double quotes when
the string contains a single quote but no double quote. -/
def pyReprOfStr (s : String) : String :=
  let cs := s.toList
  let q : Char := if cs.contains squote && !(cs.contains '"') then '"' else squote
  String.mk [q] ++ String.join (cs.map (pyEscape q)) ++ String.mk [q]

mutual

/-- Python `repr` of a modelled value (used for values nested inside
containers when they are formatted into an f-string). -/
def pyRepr : Json → String
  | .null => "None"
  | .bool true => "True"
  | .bool false => "False"
  | .num n => toString n
  | .str s => pyReprOfStr s
  | .arr xs => "[" ++ pyReprSeq xs ++ "]"
  | .obj fs => "\x7b" ++ pyReprFields fs ++ "\x7d"

/-- Comma-separated `repr`s of list elements. -/
def pyReprSeq : List Json → String
  | [] => ""
  | [x] => pyRepr x
  | x :: rest => pyRepr x ++ ", " ++ pyReprSeq rest

/-- Comma-separated `repr`s of dict entries. -/
def pyReprFields : List (String × Json) → String
  | [] => ""
  | [(k, v)] => pyReprOfStr k ++ ": " ++ pyRepr v
  | (k, v) :: rest => pyReprOfStr k ++ ": " ++ pyRepr v ++ ", " ++ pyReprFields rest

end

/-- Python `str` of a modelled value, as interpolated by an f-string. -/
def pyStr : Json → String
  | .str s => s
  | j => pyRepr j

/-- Worker for `replaceAll`, structurally recursive on a fuel argument that
starts at the input length (each step consumes at least one character, so
the fuel never runs out). -/
def replaceAllFuel (pat rep : List Char) : Nat → List Char → List Char
  | _, [] => []
  | 0, cs => cs
  | fuel + 1, c :: cs =>
    if pat.isPrefixOf (c :: cs) then
      rep ++ replaceAllFuel pat rep fuel (cs.drop (pat.length - 1))
    else
      c :: replaceAllFuel pat rep fuel cs

/-- Replace every (non-overlapping, leftmost-first) occurrence of `pat` in a
character list, as Python `str.replace` does for a non-empty pattern. -/
def replaceAll (pat rep cs : List Char) : List Char :=
  replaceAllFuel pat rep cs.length cs

/-- Python `s.replace(pat, rep)` (for the non-empty patterns this script
uses). -/
def pyReplace (s pat rep : String) : String :=
  String.mk (replaceAll pat.toList rep.toList s.toList)

/-- Python `s.strip()`: remove leading and trailing whitespace. -/
def pyStrip (s : String) : String :=
  String.mk (((s.toList.dropWhile Char.isWhitespace).reverse.dropWhile Char.isWhitespace).reverse)

/-- Digit runs as accepted by Python `int()`: digits optionally separated by
single underscores (no leading, trailing or doubled underscore). -/
def pyDigitsOk : List Char → Bool
  | [] => false
  | [c] => c.isDigit
  | c :: '_' :: rest => c.isDigit && pyDigitsOk rest
  | c :: rest => c.isDigit && pyDigitsOk rest

/-- Numeric value of a digit run (underscores removed beforehand). -/
def digitsVal (cs : List Char) : Nat :=
  cs.foldl (fun a c => a * 10 + (c.toNat - 48)) 0

/-- Python `int(s)` on an already-stripped string: optional sign followed by
a digit run; `none` models the `ValueError` raised otherwise. -/
def pyInt? (s : String) : Option Int :=
  match s.toList with
  | '+' :: rest =>
    if pyDigitsOk rest then some (digitsVal (rest.filter (· ≠ '_')) : Int) else none
  | '-' :: rest =>
    if pyDigitsOk rest then some (-(digitsVal (rest.filter (· ≠ '_')) : Int)) else none
  | cs =>
    if pyDigitsOk cs then some (digitsVal (cs.filter (· ≠ '_')) : Int) else none

/-- Python list subscription `xs[i]` with an `int` index: negative indices
count from the end; `none` models the uncaught `IndexError`. -/
def pyIndex {α : Type} (xs : List α) (i : Int) : Option α :=
  if 0 ≤ i then xs.get? i.toNat
  else if 0 ≤ i + xs.length then xs.get? (i + xs.length).toNat
  else none

/-- A calendar date, as held by `datetime.now()` for the fields this script
uses (`%Y-%m-%d` formatting and one-day subtraction). -/
structure Date where
  year : Nat
  month : Nat
  day : Nat
deriving DecidableEq, Repr

/-- Gregorian leap-year rule. -/
def isLeap (y : Nat) : Bool :=
  (y % 4 == 0 && y % 100 != 0) || y % 400 == 0

/-- Days in a month of the Gregorian calendar. -/
def daysInMonth (y m : Nat) : Nat :=
  if m == 2 then (if isLeap y then 29 else 28)
  else if m == 4 || m == 6 || m == 9 || m == 11 then 30
  else 31

/-- One day earlier: `datetime.now() - timedelta(days=1)` at date granularity. -/
def prevDay (d : Date) : Date :=
  if 1 < d.day then ⟨d.year, d.month, d.day - 1⟩
  else if 1 < d.month then ⟨d.year, d.month - 1, daysInMonth d.year (d.month - 1)⟩
  else ⟨d.year - 1, 12, 31⟩

/-- Zero-pad to two digits (`strftime` `%m`, `%d`, `%H`, `%M`, `%S`). -/
def pad2 (n : Nat) : String :=
  if n < 10 then "0" ++ toString n else toString n

/-- Zero-pad to four digits (`strftime` `%Y`). -/
def pad4 (n : Nat) : String :=
  if n < 10 then "000" ++ toString n
  else if n < 100 then "00" ++ toString n
  else if n < 1000 then "0" ++ toString n
  else toString n

/-- The `strftime("%Y-%m-%d")` rendering of a date. -/
def fmtDate (d : Date) : String :=
  pad4 d.year ++ "-" ++ pad2 d.month ++ "-" ++ pad2 d.day

/-- The fields of a parsed `datetime` that `strftime("%H:%M:%S")` reads
(fractional seconds and the offset are validated by the parser but not
retained). -/
structure PyDateTime where
  year : Nat
  month : Nat
  day : Nat
  hour : Nat
  minute : Nat
  second : Nat
deriving DecidableEq, Repr

/-- One decimal digit. -/
def d1 (c : Char) : Option Nat :=
  if c.isDigit then some (c.toNat - 48) else none

/-- Exactly two leading digits. -/
def take2 : List Char → Option (Nat × List Char)
  | a :: b :: rest =>
    match d1 a, d1 b with
    | some x, some y => some (x * 10 + y, rest)
    | _, _ => none
  | _ => none

/-- Exactly four leading digits. -/
def take4 : List Char → Option (Nat × List Char)
  | a :: b :: c :: d :: rest =>
    match d1 a, d1 b, d1 c, d1 d with
    | some w, some x, some y, some z => some (((w * 10 + x) * 10 + y) * 10 + z, rest)
    | _, _, _, _ => none
  | _ => none

/-- ISO date portion: `YYYY-MM-DD` or the basic form `YYYYMMDD`. -/
def parseDate (cs : List Char) : Option (Nat × Nat × Nat × List Char) :=
  match take4 cs with
  | none => none
  | some (y, rest) =>
    match rest with
    | '-' :: r1 =>
      match take2 r1 with
      | none => none
      | some (m, r2) =>
        match r2 with
        | '-' :: r3 =>
          match take2 r3 with
          | none => none
          | some (d, r4) => some (y, m, d, r4)
        | _ => none
    | _ =>
      match take2 rest with
      | none => none
      | some (m, r2) =>
        match take2 r2 with
        | none => none
        | some (d, r3) => some (y, m, d, r3)

/-- Consume an optional fractional-seconds part (`.` or `,` followed by
digits); when the separator is present but no digit follows, it is left in
place so that the overall parse fails. -/
def consumeFrac : List Char → List Char
  | '.' :: r => if (r.takeWhile Char.isDigit).isEmpty then '.' :: r else r.dropWhile Char.isDigit
  | ',' :: r => if (r.takeWhile Char.isDigit).isEmpty then ',' :: r else r.dropWhile Char.isDigit
  | cs => cs

/-- ISO time portion: `HH`, `HH:MM`, `HH:MM:SS`, the basic forms `HHMM` /
`HHMMSS`, and an optional fractional part after the seconds.  Range checks
are performed by the caller. -/
def parseTime (cs : List Char) : Option (Nat × Nat × Nat × List Char) :=
  match take2 cs with
  | none => none
  | some (h, r1) =>
    match r1 with
    | ':' :: r2 =>
      match take2 r2 with
      | none => none
      | some (m, r3) =>
        match r3 with
        | ':' :: r4 =>
          match take2 r4 with
          | none => none
          | some (s, r5) => some (h, m, s, consumeFrac r5)
        | _ => some (h, m, 0, r3)
    | _ =>
      match take2 r1 with
      | some (m, r3) =>
        match take2 r3 with
        | some (s, r5) => some (h, m, s, consumeFrac r5)
        | none => some (h, m, 0, r3)
      | none => some (h, 0, 0, r1)

/-- UTC-offset suffix: empty, `Z`/`z`, or a sign followed by a time-shaped
offset strictly below 24 hours. -/
def parseTz : List Char → Bool
  | [] => true
  | ['Z'] => true
  | ['z'] => true
  | sign :: rest =>
    (sign == '+' || sign == '-') &&
      match parseTime rest with
      | some (h, m, s, leftover) =>
        leftover.isEmpty && h ≤ 23 && m ≤ 59 && s ≤ 59
      | none => false

/-- Model of Python 3.11 `datetime.fromisoformat` on the formats this tool
can meet: extended or basic calendar date, any single separator character,
extended or basic time with optional fraction, optional `Z`/`z` or numeric
offset (ISO week dates are not modelled).  `none` models the `ValueError`
that the script catches. -/
def pyFromIso (s : String) : Option PyDateTime :=
  match parseDate s.toList with
  | none => none
  | some (y, mo, d, rest) =>
    if y < 1 || mo < 1 || 12 < mo || d < 1 || daysInMonth y mo < d then none
    else
      match rest with
      | [] => some ⟨y, mo, d, 0, 0, 0⟩
      | _sep :: timeCs =>
        match parseTime timeCs with
        | none => none
        | some (h, mi, se, rest2) =>
          if 23 < h || 59 < mi || 59 < se then none
          else if parseTz rest2 then some ⟨y, mo, d, h, mi, se⟩ else none

/-- The `strftime("%H:%M:%S")` rendering of a parsed timestamp. -/
def strftimeHMS (t : PyDateTime) : String :=
  pad2 t.hour ++ ":" ++ pad2 t.minute ++ ":" ++ pad2 t.second

/-- The timestamp reformatting done for clock submissions and status lines:
replace `"Z"` with `"+00:00"`, try `fromisoformat`, and render `%H:%M:%S`;
on a parse failure (`ValueError`) the original string is kept. -/
def formatClockTime (s : String) : String :=
  match pyFromIso (pyReplace s "Z" "+00:00") with
  | some dt => strftimeHMS dt
  | none => s

/-- An HTTP response as observed by the script: status code, raw body text,
and the result of `response.json()` (`none` models the decode error raised
on a non-JSON body). -/
structure HttpResponse where
  status : Nat
  text : String
  json : Option Json

/-- Observable effects of a command, in program order. -/
inductive Event where
  | httpReq : String → List (String × Json) → Event
  | saveConfig : List (String × Json) → Event
  | saveToken : Json → Event
  | print : String → Event

/-- How an invocation ends: normal completion (process exit code 0),
`sys.exit code`, or an uncaught Python exception (which also terminates the
process with a non-zero status, but without the script's own message). -/
inductive Outcome (α : Type) where
  | ok : α → Outcome α
  | exit : Nat → Outcome α
  | crash : Outcome α

/-- The config documents written during a trace, in order. -/
def savedConfigs (evs : List Event) : List (List (String × Json)) :=
  evs.filterMap fun e => match e with
    | .saveConfig c => some c
    | _ => none

/-- Whether a trace contains an HTTP request with the given name. -/
def hasReq (name : String) (evs : List Event) : Bool :=
  evs.any fun e => match e with
    | .httpReq n _ => n == name
    | _ => false

/-- Error printed when no access token is stored (line 84 of the script). -/
def authMissingMsg : String :=
  "エラー: 認証されていません。先に 'auth' コマンドを実行してください。"

/-- Error printed when company/employee ids are not configured. -/
def idsMissingMsg : String :=
  "エラー: 先に 'info' コマンドで事業所ID・従業員IDを設定してください。"

/-- Model of `get_access_token()`: load the token and config documents (passed in as
the loaded values), fail if no access token is stored, otherwise exchange
the refresh token when one is present — persisting the refresh response
wholesale — and fall back to the stored access token only when no refresh
token exists.  `refreshResp` is the response the token endpoint would give
to the refresh request. -/
def get_access_token (token config : Json) (refreshResp : HttpResponse) :
    Outcome Json × List Event :=
  match token.getOpt "access_token" with
  | none => (.crash, [])
  | some atOpt =>
    if optTruthy atOpt = false then
      (.exit 1, [.print authMissingMsg])
    else
      match token.getOpt "refresh_token" with
      | none => (.crash, [])
      | some rtOpt =>
        if optTruthy rtOpt then
          match rtOpt with
          | none => (.crash, [])
          | some rt =>
            match config.subscript "client_id", config.subscript "client_secret" with
            | some _, some _ =>
              let ev : List Event :=
                [.httpReq "POST token" [("grant_type", .str "refresh_token"), ("refresh_token", rt)]]
              if refreshResp.status == 200 then
                match refreshResp.json with
                | none => (.crash, ev)
                | some new_token =>
                  match new_token.subscript "access_token" with
                  | some a => (.ok a, ev ++ [.saveToken new_token])
                  | none => (.crash, ev ++ [.saveToken new_token])
              else
                (.exit 1, ev ++ [.print ("トークン更新エラー: " ++ refreshResp.text),
                                 .print "再度 'auth' コマンドを実行してください。"])
            | _, _ => (.crash, [])
        else
          match token.subscript "access_token" with
          | some a => (.ok a, [])
          | none => (.crash, [])

/-- The config document as updated in memory by `cmd_setup` before the
mandatory-values check: each entered answer is stripped and, when
non-empty, assigned over the loaded config. -/
def setupMerged (cf : List (String × Json)) (clientIdIn clientSecretIn : String) :
    List (String × Json) :=
  let cf1 := if pyStrip clientIdIn != "" then setKey cf "client_id" (.str (pyStrip clientIdIn))
             else cf
  if pyStrip clientSecretIn != "" then setKey cf1 "client_secret" (.str (pyStrip clientSecretIn))
  else cf1

/-- Model of `cmd_setup`: prompt for client id/secret (the two input strings are the
raw interactive answers), merge the non-empty stripped answers into the
loaded config, require both values, and persist.  Prompt text shown by
`input()` is not modelled as an event. -/
def cmd_setup (config : Json) (clientIdIn clientSecretIn : String) :
    Outcome Unit × List Event :=
  let ev0 : List Event := [.print "=== freee API 初期設定 ===\n"]
  match config with
  | .obj cf =>
    let cf2 := setupMerged cf clientIdIn clientSecretIn
    if !optTruthy (lookup cf2 "client_id") || !optTruthy (lookup cf2 "client_secret") then
      (.exit 1, ev0 ++ [.print "エラー: CLIENT_ID と CLIENT_SECRET は必須です。"])
    else
      (.ok (), ev0 ++ [.saveConfig cf2,
                       .print "\n設定を保存しました: config.json",
                       .print "次に 'auth' コマンドで認証を行ってください。"])
  | _ => (.crash, ev0)

/-- The selection `companies[int(choice) - 1]` / `employees[int(choice) - 1]`: parse the
entered choice with `int()` and index the list 1-based, with Python's
negative-index wrap-around; `none` models the uncaught `ValueError` /
`IndexError`. -/
def pickEntry (entries : List Json) (choice : String) : Option Json :=
  match pyInt? (pyStrip choice) with
  | none => none
  | some c => pyIndex entries (c - 1)

/-- The organization-listing loop of `cmd_info` (1-based enumeration);
crashes when an element is not a dict with `name` and `id`. -/
def companiesLoop : Nat → List Json → Outcome Unit × List Event
  | _, [] => (.ok (), [])
  | i, c :: rest =>
    match c.subscript "name", c.subscript "id" with
    | some nm, some cid =>
      let line := "  [" ++ toString i ++ "] " ++ pyStr nm ++ " (ID: " ++ pyStr cid ++ ")"
      let (o, ev) := companiesLoop (i + 1) rest
      (o, .print line :: ev)
    | _, _ => (.crash, [])

/-- The employee-listing loop of `cmd_info` (`email` read with a `""`
default before the mandatory `display_name` / `id` subscripts). -/
def employeesLoop : Nat → List Json → Outcome Unit × List Event
  | _, [] => (.ok (), [])
  | i, e :: rest =>
    match e with
    | .obj ef =>
      let email := (lookup ef "email").getD (.str "")
      match lookup ef "display_name", lookup ef "id" with
      | some dn, some eid =>
        let line := "  [" ++ toString i ++ "] " ++ pyStr dn ++ " (ID: " ++ pyStr eid ++ ") " ++ pyStr email
        let (o, ev) := employeesLoop (i + 1) rest
        (o, .print line :: ev)
      | _, _ => (.crash, [])
    | _ => (.crash, [])

/-- Model of `cmd_info`: resolve and persist organization and employee ids.
`usersResp` / `employeesResp` are the responses of the two GET endpoints;
`choice1` / `choice2` the interactive picker answers (consulted only when
the respective list has length other than one).  The single `save_config`
call of the command happens at the very end, after both ids are chosen. -/
def cmd_info (token config : Json) (refreshResp usersResp employeesResp : HttpResponse)
    (choice1 choice2 : String) : Outcome Unit × List Event :=
  match get_access_token token config refreshResp with
  | (.exit c, ev) => (.exit c, ev)
  | (.crash, ev) => (.crash, ev)
  | (.ok _tok, ev0) =>
    let ev1 := ev0 ++ [.print "=== 事業所・従業員情報の取得 ===\n", .httpReq "GET users/me" []]
    if usersResp.status ≠ 200 then (.exit 1, ev1 ++ [.print ("エラー: " ++ usersResp.text)])
    else
      match usersResp.json with
      | none => (.crash, ev1)
      | some user_info =>
        match user_info.getOpt "companies" with
        | none => (.crash, ev1)
        | some cOpt =>
          let companies := cOpt.getD (.arr [])
          if companies.truthy = false then
            (.exit 1, ev1 ++ [.print "エラー: 所属する事業所がありません。"])
          else
            let ev2 := ev1 ++ [.print "所属事業所一覧:"]
            match iterate companies with
            | none => (.crash, ev2)
            | some clist =>
              match (companiesLoop 1 clist).1 with
              | .ok _ =>
                let ev3 := ev2 ++ (companiesLoop 1 clist).2
                match (if clist.length == 1 then clist.head? else pickEntry clist choice1) with
                | none => (.crash, ev3)
                | some selected_company =>
                  match selected_company.subscript "id" with
                  | none => (.crash, ev3)
                  | some company_id =>
                    match config with
                    | .obj cf =>
                      let cf1 := setKey cf "company_id" company_id
                      let ev4 := ev3 ++ [.print ("\n事業所ID: " ++ pyStr company_id),
                        .httpReq "GET employees" [("company_id", company_id), ("limit", .num 100)]]
                      if employeesResp.status ≠ 200 then
                        (.exit 1, ev4 ++ [.print ("エラー: " ++ employeesResp.text)])
                      else
                        match employeesResp.json with
                        | none => (.crash, ev4)
                        | some ej =>
                          match ej.getOpt "employees" with
                          | none => (.crash, ev4)
                          | some eOpt =>
                            let employees := eOpt.getD (.arr [])
                            let ev5 := ev4 ++ [.print "\n従業員一覧:"]
                            match iterate employees with
                            | none => (.crash, ev5)
                            | some elist =>
                              match (employeesLoop 1 elist).1 with
                              | .ok _ =>
                                let ev6 := ev5 ++ (employeesLoop 1 elist).2
                                match (if elist.length == 1 then elist.head? else pickEntry elist choice2) with
                                | none => (.crash, ev6)
                                | some selected_employee =>
                                  match selected_employee.subscript "id" with
                                  | none => (.crash, ev6)
                                  | some employee_id =>
                                    let cf2 := setKey cf1 "employee_id" employee_id
                                    (.ok (), ev6 ++ [.saveConfig cf2,
                                      .print ("\n従業員ID: " ++ pyStr employee_id),
                                      .print "\n設定を保存しました: config.json",
                                      .print "\nこれで準備完了です！",
                                      .print "  'in'     - 出勤打刻",
                                      .print "  'out'    - 退勤打刻",
                                      .print "  'status' - 打刻状況確認"])
                              | o => (o, ev5 ++ (employeesLoop 1 elist).2)
                    | _ => (.crash, ev3)
              | o => (o, ev2 ++ (companiesLoop 1 clist).2)

/-- Error-message selection of `_clock` for a JSON-object error body:
prefer `message`, fall back to `errors`, fall back to the raw body text. -/
def clockErrorMsg (ef : List (String × Json)) (text : String) : Json :=
  match lookup ef "message" with
  | some v => v
  | none =>
    match lookup ef "errors" with
    | some v => v
    | none => .str text

/-- The timestamp display of `_clock` / `cmd_status`: a truthy string goes
through the reformatting with its non-fatal fallback; a falsy value is
interpolated as-is; a truthy non-string crashes (`.replace` on a
non-string raises outside the `except ValueError`). -/
def displayTime (clock_time : Json) : Option String :=
  if clock_time.truthy then
    match clock_time with
    | .str s => some (formatClockTime s)
    | _ => none
  else some (pyStr clock_time)

/-- Model of `_clock(clock_type, label)`: submit one clock event for the current
local date `now`; `clockResp` is the response of the POST. -/
def _clock (clock_type label : String) (token config : Json) (refreshResp : HttpResponse)
    (now : Date) (clockResp : HttpResponse) : Outcome Unit × List Event :=
  match get_access_token token config refreshResp with
  | (.exit c, ev) => (.exit c, ev)
  | (.crash, ev) => (.crash, ev)
  | (.ok _tok, ev0) =>
    match config with
    | .obj cf =>
      if !optTruthy (lookup cf "company_id") || !optTruthy (lookup cf "employee_id") then
        (.exit 1, ev0 ++ [.print idsMissingMsg])
      else
        match lookup cf "company_id", lookup cf "employee_id" with
        | some cid, some _eid =>
          let ev1 := ev0 ++ [.httpReq "POST time_clocks"
            [("company_id", cid), ("type", .str clock_type), ("base_date", .str (fmtDate now))]]
          if clockResp.status == 200 || clockResp.status == 201 then
            match clockResp.json with
            | none => (.crash, ev1)
            | some result =>
              match result.getOpt "datetime" with
              | none => (.crash, ev1)
              | some dtOpt =>
                match displayTime (dtOpt.getD (.str "")) with
                | none => (.crash, ev1)
                | some t => (.ok (), ev1 ++ [.print ("✓ " ++ label ++ "打刻完了: " ++ t)])
          else
            match clockResp.json with
            | none => (.crash, ev1)
            | some err =>
              match err with
              | .obj ef =>
                (.exit 1, ev1 ++ [.print ("✗ " ++ label ++ "打刻失敗: " ++ pyStr (clockErrorMsg ef clockResp.text))])
              | _ => (.crash, ev1)
        | _, _ => (.crash, ev0)
    | _ => (.crash, ev0)

/-- Model of `cmd_clock_in`. -/
def cmd_clock_in (token config : Json) (rr : HttpResponse) (now : Date)
    (resp : HttpResponse) : Outcome Unit × List Event :=
  _clock "clock_in" "出勤" token config rr now resp

/-- Model of `cmd_clock_out`. -/
def cmd_clock_out (token config : Json) (rr : HttpResponse) (now : Date)
    (resp : HttpResponse) : Outcome Unit × List Event :=
  _clock "clock_out" "退勤" token config rr now resp

/-- Model of `cmd_break_begin`. -/
def cmd_break_begin (token config : Json) (rr : HttpResponse) (now : Date)
    (resp : HttpResponse) : Outcome Unit × List Event :=
  _clock "break_begin" "休憩開始" token config rr now resp

/-- Model of `cmd_break_end`. -/
def cmd_break_end (token config : Json) (rr : HttpResponse) (now : Date)
    (resp : HttpResponse) : Outcome Unit × List Event :=
  _clock "break_end" "休憩終了" token config rr now resp

/-- Target-date selection of `cmd_status`: `args.date` if truthy (a
non-`None`, non-empty string), else yesterday when the flag is set, else
today. -/
def targetDate : Option String → Bool → Date → String
  | some d, y, now =>
    if d != "" then d
    else if y then fmtDate (prevDay now) else fmtDate now
  | none, y, now =>
    if y then fmtDate (prevDay now) else fmtDate now

/-- The extraction `items = clocks if isinstance(clocks, list) else clocks.get("items", [])`. -/
def statusItems : Json → Option Json
  | .arr xs => some (.arr xs)
  | .obj fs => some ((lookup fs "items").getD (.arr []))
  | _ => none

/-- Localized labels of the status display. -/
def type_labels : List (String × String) :=
  [("clock_in", "出勤"), ("clock_out", "退勤"),
   ("break_begin", "休憩開始"), ("break_end", "休憩終了")]

/-- The lookup `type_labels.get(clock_type, clock_type)`: unknown tags fall back to the
tag itself; non-hashable keys (lists, dicts) raise, modelled by `none`. -/
def labelFor (t : Json) : Option Json :=
  match t with
  | .str s =>
    some (match type_labels.find? (fun p => p.1 == s) with
          | some p => .str p.2
          | none => .str s)
  | .arr _ => none
  | .obj _ => none
  | other => some other

/-- One printed line of the status loop. -/
def statusLine (clock : Json) : Option String :=
  match clock.getOpt "type" with
  | none => none
  | some tOpt =>
    match labelFor (tOpt.getD (.str "unknown")) with
    | none => none
    | some label =>
      match clock.getOpt "datetime" with
      | none => none
      | some dOpt =>
        match displayTime (dOpt.getD (.str "")) with
        | none => none
        | some t => some ("  " ++ pyStr label ++ ": " ++ t)

/-- The per-event print loop of `cmd_status`; lines printed before a crash
stay in the trace. -/
def statusLoop : List Json → Outcome Unit × List Event
  | [] => (.ok (), [])
  | c :: rest =>
    match statusLine c with
    | none => (.crash, [])
    | some l =>
      let (o, ev) := statusLoop rest
      (o, .print l :: ev)

/-- Model of `cmd_status`: query the clock events of the selected day
(`from_date` = `to_date` = target date) and print one line per event. -/
def cmd_status (token config : Json) (refreshResp : HttpResponse) (argsDate : Option String)
    (argsYesterday : Bool) (now : Date) (statusResp : HttpResponse) :
    Outcome Unit × List Event :=
  match get_access_token token config refreshResp with
  | (.exit c, ev) => (.exit c, ev)
  | (.crash, ev) => (.crash, ev)
  | (.ok _tok, ev0) =>
    match config with
    | .obj cf =>
      if !optTruthy (lookup cf "company_id") || !optTruthy (lookup cf "employee_id") then
        (.exit 1, ev0 ++ [.print idsMissingMsg])
      else
        match lookup cf "company_id", lookup cf "employee_id" with
        | some cid, some _eid =>
          let target := targetDate argsDate argsYesterday now
          let ev1 := ev0 ++ [.httpReq "GET time_clocks"
            [("company_id", cid), ("from_date", .str target), ("to_date", .str target)]]
          if statusResp.status ≠ 200 then (.exit 1, ev1 ++ [.print ("エラー: " ++ statusResp.text)])
          else
            match statusResp.json with
            | none => (.crash, ev1)
            | some clocks =>
              let ev2 := ev1 ++ [.print ("=== " ++ target ++ " の打刻状況 ===\n")]
              match statusItems clocks with
              | none => (.crash, ev2)
              | some items =>
                if items.truthy = false then (.ok (), ev2 ++ [.print "打刻記録がありません。"])
                else
                  match iterate items with
                  | none => (.crash, ev2)
                  | some ilist =>
                    let (o, evL) := statusLoop ilist
                    (o, ev2 ++ evL)
        | _, _ => (.crash, ev0)
    | _ => (.crash, ev0)

/-- Localized labels of the available-types display. -/
def available_type_labels : List (String × String) :=
  [("clock_in", "出勤 (in)"), ("clock_out", "退勤 (out)"),
   ("break_begin", "休憩開始 (break-begin)"), ("break_end", "休憩終了 (break-end)")]

/-- One printed line of the available-types loop. -/
def availLine (t : Json) : Option String :=
  match t with
  | .str s =>
    some ("  - " ++ (match available_type_labels.find? (fun p => p.1 == s) with
                     | some p => p.2
                     | none => s))
  | .arr _ => none
  | .obj _ => none
  | other => some ("  - " ++ pyStr other)

/-- The print loop of `cmd_available`. -/
def availLoop : List Json → Outcome Unit × List Event
  | [] => (.ok (), [])
  | t :: rest =>
    match availLine t with
    | none => (.crash, [])
    | some l =>
      let (o, ev) := availLoop rest
      (o, .print l :: ev)

/-- Model of `cmd_available`: query which clock types are currently valid, reading
the result under `available_types` with a fallback to `types`. -/
def cmd_available (token config : Json) (refreshResp : HttpResponse) (now : Date)
    (availResp : HttpResponse) : Outcome Unit × List Event :=
  match get_access_token token config refreshResp with
  | (.exit c, ev) => (.exit c, ev)
  | (.crash, ev) => (.crash, ev)
  | (.ok _tok, ev0) =>
    match config with
    | .obj cf =>
      if !optTruthy (lookup cf "company_id") || !optTruthy (lookup cf "employee_id") then
        (.exit 1, ev0 ++ [.print idsMissingMsg])
      else
        match lookup cf "company_id", lookup cf "employee_id" with
        | some cid, some _eid =>
          let ev1 := ev0 ++ [.httpReq "GET available_types"
            [("company_id", cid), ("date", .str (fmtDate now))]]
          if availResp.status ≠ 200 then (.exit 1, ev1 ++ [.print ("エラー: " ++ availResp.text)])
          else
            match availResp.json with
            | none => (.crash, ev1)
            | some result =>
              match result.getOpt "available_types", result.getOpt "types" with
              | some aOpt, some tOpt =>
                let types := aOpt.getD (tOpt.getD (.arr []))
                let ev2 := ev1 ++ [.print "=== 現在打刻可能な種別 ===\n"]
                if types.truthy = false then (.ok (), ev2 ++ [.print "打刻可能な種別がありません。"])
                else
                  match iterate types with
                  | none => (.crash, ev2)
                  | some tlist =>
                    let (o, evL) := availLoop tlist
                    (o, ev2 ++ evL)
              | _, _ => (.crash, ev1)
        | _, _ => (.crash, ev0)
    | _ => (.crash, ev0)

/-! ## Helper lemmas -/

/-- Closed form of `get_access_token` when the stored token document has a
non-empty access token and a non-empty refresh token and the config holds
client credentials: the refresh exchange always happens. -/
theorem gat_refresh_eq (tf cf : List (String × Json)) (a r : String) (ci cs' : Json)
    (rr : HttpResponse)
    (ha : lookup tf "access_token" = some (.str a)) (ha' : a ≠ "")
    (hr : lookup tf "refresh_token" = some (.str r)) (hr' : r ≠ "")
    (hci : lookup cf "client_id" = some ci) (hcs : lookup cf "client_secret" = some cs') :
    get_access_token (.obj tf) (.obj cf) rr =
      (if rr.status == 200 then
        match rr.json with
        | none => (.crash,
            [.httpReq "POST token" [("grant_type", .str "refresh_token"), ("refresh_token", .str r)]])
        | some nt =>
          match nt.subscript "access_token" with
          | some x => (.ok x,
              [.httpReq "POST token" [("grant_type", .str "refresh_token"), ("refresh_token", .str r)],
               .saveToken nt])
          | none => (.crash,
              [.httpReq "POST token" [("grant_type", .str "refresh_token"), ("refresh_token", .str r)],
               .saveToken nt])
      else (.exit 1,
          [.httpReq "POST token" [("grant_type", .str "refresh_token"), ("refresh_token", .str r)],
           .print ("トークン更新エラー: " ++ rr.text),
           .print "再度 'auth' コマンドを実行してください。"])) := by
  simp only [get_access_token, Json.getOpt, Json.subscript, ha, hr, hci, hcs, optTruthy,
    Json.truthy]
  simp [ha', hr']

/-- Running `get_access_token` with a missing or falsy stored access token: fatal
error, no request, regardless of the rest of the token or config. -/
theorem gat_no_token (tf : List (String × Json)) (config : Json) (rr : HttpResponse)
    (h : optTruthy (lookup tf "access_token") = false) :
    get_access_token (.obj tf) config rr = (.exit 1, [.print authMissingMsg]) := by
  simp [get_access_token, Json.getOpt, h]

/-- A truthy string is reformatted, a falsy (empty) one is shown as-is, and
both cases coincide with `formatClockTime`. -/
theorem displayTime_str (s : String) : displayTime (.str s) = some (formatClockTime s) := by
  by_cases h : s = ""
  · subst h; decide
  · simp [displayTime, Json.truthy, h, pyStr]

/-- Closed form of `_clock` on a 200/201 response with a JSON-object body:
one POST, then the success line built from the body's `datetime` value
(crash only when that value is a truthy non-string). -/
theorem clock_success_trace (ct lbl : String) (token : Json) (cf ef : List (String × Json))
    (rr : HttpResponse) (now : Date) (resp : HttpResponse) (tok : Json) (ev0 : List Event)
    (cid eid : Json) (dv : Option Json)
    (hg : get_access_token token (.obj cf) rr = (.ok tok, ev0))
    (hc : lookup cf "company_id" = some cid) (hct : cid.truthy = true)
    (he : lookup cf "employee_id" = some eid) (het : eid.truthy = true)
    (hst : resp.status = 200 ∨ resp.status = 201)
    (hj : resp.json = some (.obj ef)) (hd : lookup ef "datetime" = dv) :
    _clock ct lbl token (.obj cf) rr now resp =
      (match displayTime (dv.getD (.str "")) with
       | some t => (.ok (), ev0 ++ [.httpReq "POST time_clocks"
            [("company_id", cid), ("type", .str ct), ("base_date", .str (fmtDate now))],
            .print ("✓ " ++ lbl ++ "打刻完了: " ++ t)])
       | none => (.crash, ev0 ++ [.httpReq "POST time_clocks"
            [("company_id", cid), ("type", .str ct), ("base_date", .str (fmtDate now))]])) := by
  have hst' : (resp.status == 200 || resp.status == 201) = true := by
    rcases hst with h | h <;> simp [h]
  rcases hdt : displayTime (dv.getD (.str "")) with _ | t <;>
  · simp only [_clock, hg, hc, he, optTruthy, hct, het, hst', hj, Json.getOpt, hd, hdt]
    simp

/-- A status line for an event object with a string tag and a string
timestamp: localized label (with raw-tag fallback) and reformatted time. -/
theorem statusLine_pair (ty s : String) :
    statusLine (.obj [("type", .str ty), ("datetime", .str s)]) =
      some ("  " ++ (match type_labels.find? (fun p => p.1 == ty) with
                     | some p => p.2
                     | none => ty) ++ ": " ++ formatClockTime s) := by
  have h1 : lookup [("type", Json.str ty), ("datetime", Json.str s)] "type" = some (.str ty) := by
    simp [lookup]
  have h2 : lookup [("type", Json.str ty), ("datetime", Json.str s)] "datetime" =
      some (.str s) := by
    simp [lookup, List.find?]
  simp only [statusLine, Json.getOpt, h1, h2, Option.getD_some, labelFor, displayTime_str]
  split <;> simp [pyStr]

/-- The status print loop over well-formed event objects completes normally
and prints one line per event. -/
theorem statusLoop_pairs (l : List (String × String)) :
    statusLoop (l.map fun p => .obj [("type", .str p.1), ("datetime", .str p.2)]) =
      (.ok (), l.map fun p =>
        .print ("  " ++ (match type_labels.find? (fun q => q.1 == p.1) with
                         | some q => q.2
                         | none => p.1) ++ ": " ++ formatClockTime p.2)) := by
  induction l with
  | nil => rfl
  | cons p rest ih => simp [statusLoop, statusLine_pair, ih]

/-- Closed form of `_clock` on a response whose status is neither 200 nor
201: a JSON-object body yields the printed error message and exit 1; a
non-JSON body (or a JSON body that is not an object) crashes in
`response.json()` / `.get` before any message is printed. -/
theorem clock_error_trace (ct lbl : String) (token : Json) (cf : List (String × Json))
    (rr : HttpResponse) (now : Date) (resp : HttpResponse) (tok : Json) (ev0 : List Event)
    (cid eid : Json)
    (hg : get_access_token token (.obj cf) rr = (.ok tok, ev0))
    (hc : lookup cf "company_id" = some cid) (hct : cid.truthy = true)
    (he : lookup cf "employee_id" = some eid) (het : eid.truthy = true)
    (h200 : resp.status ≠ 200) (h201 : resp.status ≠ 201) :
    _clock ct lbl token (.obj cf) rr now resp =
      (match resp.json with
       | none => (.crash, ev0 ++ [.httpReq "POST time_clocks"
            [("company_id", cid), ("type", .str ct), ("base_date", .str (fmtDate now))]])
       | some (.obj ef) => (.exit 1, ev0 ++ [.httpReq "POST time_clocks"
            [("company_id", cid), ("type", .str ct), ("base_date", .str (fmtDate now))],
            .print ("✗ " ++ lbl ++ "打刻失敗: " ++ pyStr (clockErrorMsg ef resp.text))])
       | some _ => (.crash, ev0 ++ [.httpReq "POST time_clocks"
            [("company_id", cid), ("type", .str ct), ("base_date", .str (fmtDate now))]])) := by
  have hst' : (resp.status == 200 || resp.status == 201) = false := by
    simp [h200, h201]
  rcases hj : resp.json with _ | err
  · simp only [_clock, hg, hc, he, optTruthy, hct, het, hst', hj]
    simp
  · cases err <;>
    · simp only [_clock, hg, hc, he, optTruthy, hct, het, hst', hj]
      simp

/-- The projection `savedConfigs` distributes over trace concatenation. -/
theorem savedConfigs_append (a b : List Event) :
    savedConfigs (a ++ b) = savedConfigs a ++ savedConfigs b := by
  simp [savedConfigs]

/-- The projection `savedConfigs` ignores a leading print. -/
theorem savedConfigs_cons_print (s : String) (l : List Event) :
    savedConfigs (.print s :: l) = savedConfigs l := rfl

/-- The projection `savedConfigs` ignores a leading HTTP request. -/
theorem savedConfigs_cons_req (n : String) (ps : List (String × Json)) (l : List Event) :
    savedConfigs (.httpReq n ps :: l) = savedConfigs l := rfl

/-- The projection `savedConfigs` ignores a leading token write. -/
theorem savedConfigs_cons_tok (t : Json) (l : List Event) :
    savedConfigs (.saveToken t :: l) = savedConfigs l := rfl

/-- The projection `savedConfigs` records a leading config write. -/
theorem savedConfigs_cons_save (c : List (String × Json)) (l : List Event) :
    savedConfigs (.saveConfig c :: l) = c :: savedConfigs l := rfl

/-- The projection `savedConfigs` of the empty trace. -/
theorem savedConfigs_nil : savedConfigs [] = [] := rfl

/-- Token acquisition (`get_access_token`) never writes the config file. -/
theorem gat_no_save (t c : Json) (rr : HttpResponse) :
    savedConfigs (get_access_token t c rr).2 = [] := by
  unfold get_access_token
  repeat' split
  all_goals rfl

/-- The organization-listing loop never writes the config file. -/
theorem companiesLoop_no_save (i : Nat) (l : List Json) :
    savedConfigs (companiesLoop i l).2 = [] := by
  induction l generalizing i with
  | nil => rfl
  | cons c rest ih =>
    have ih' := ih (i + 1)
    simp only [companiesLoop]
    split
    · rcases hr : companiesLoop (i + 1) rest with ⟨o, ev⟩
      rw [hr] at ih'
      simpa [savedConfigs] using ih'
    · rfl

/-- The employee-listing loop never writes the config file. -/
theorem employeesLoop_no_save (i : Nat) (l : List Json) :
    savedConfigs (employeesLoop i l).2 = [] := by
  induction l generalizing i with
  | nil => rfl
  | cons e rest ih =>
    have ih' := ih (i + 1)
    simp only [employeesLoop]
    split
    · split
      · rcases hr : employeesLoop (i + 1) rest with ⟨o, ev⟩
        rw [hr] at ih'
        simpa [savedConfigs] using ih'
      · rfl
    · rfl

/-- Replacing the entries keyed `k` leaves every other key's first binding
unchanged. -/
theorem lookup_map_replace (fs : List (String × Json)) (k k' : String) (v : Json)
    (h : k' ≠ k) :
    lookup (fs.map fun p => if p.1 == k then (k, v) else p) k' = lookup fs k' := by
  induction fs with
  | nil => rfl
  | cons p rest ih =>
    by_cases hp : (p.1 == k) = true
    · have hpk : p.1 = k := by simpa using hp
      have hne : (k == k') = false := by
        simp [Ne.symm h]
      have hne2 : (p.1 == k') = false := by
        simp [hpk, Ne.symm h]
      simp [lookup, List.find?, hp, hne, hne2] at ih ⊢
      simpa [lookup] using ih
    · have hp' : (p.1 == k) = false := by simpa using hp
      by_cases hq : (p.1 == k') = true
      · simp [lookup, List.find?, hp', hq]
      · have hq' : (p.1 == k') = false := by simpa using hq
        simp [lookup, List.find?, hp', hq'] at ih ⊢
        simpa [lookup] using ih

/-- Appending a binding for a different key does not change a lookup. -/
theorem lookup_append_single (fs : List (String × Json)) (k k' : String) (v : Json)
    (h : k' ≠ k) :
    lookup (fs ++ [(k, v)]) k' = lookup fs k' := by
  have hne : (k == k') = false := by
    simp [Ne.symm h]
  induction fs with
  | nil => simp [lookup, List.find?, hne]
  | cons p rest ih =>
    by_cases hq : (p.1 == k') = true
    · simp [lookup, List.find?, hq]
    · have hq' : (p.1 == k') = false := by simpa using hq
      simp only [lookup, List.cons_append, List.find?, hq'] at ih ⊢
      exact ih

/-- Assignment (`setKey`) leaves every other key's binding unchanged (Python dict
assignment touches one key). -/
theorem lookup_setKey_ne (fs : List (String × Json)) (k k' : String) (v : Json)
    (h : k' ≠ k) :
    lookup (setKey fs k v) k' = lookup fs k' := by
  unfold setKey
  split
  · exact lookup_map_replace fs k k' v h
  · exact lookup_append_single fs k k' v h

/-- After `setKey`, the assigned key maps to the assigned value. -/
theorem lookup_setKey_self (fs : List (String × Json)) (k : String) (v : Json) :
    lookup (setKey fs k v) k = some v := by
  unfold setKey
  split
  · next hany =>
    induction fs with
    | nil => simp at hany
    | cons p rest ih =>
      by_cases hp : (p.1 == k) = true
      · simp [lookup, List.find?, hp]
      · have hp' : (p.1 == k) = false := by simpa using hp
        have hany' : rest.any (fun p => p.1 == k) = true := by
          simpa [List.any, hp'] using hany
        simpa [lookup, List.find?, hp'] using ih hany'
  · next hany =>
    have hnone : List.find? (fun p => p.1 == k) fs = none := by
      rw [List.find?_eq_none]
      intro p hp hpk
      exact hany (List.any_eq_true.mpr ⟨p, hp, hpk⟩)
    simp [lookup, List.find?_append, hnone, List.find?]

/-- Assignment (`setKey`) never drops a key: any key bound before is bound after. -/
theorem lookup_setKey_isSome (fs : List (String × Json)) (k k' : String) (v : Json)
    (h : (lookup fs k').isSome = true) :
    (lookup (setKey fs k v) k').isSome = true := by
  by_cases hk : k' = k
  · subst hk
    rw [lookup_setKey_self]
    rfl
  · rw [lookup_setKey_ne fs k k' v hk]
    exact h

/-- A conditional `setKey` (dict assignment guarded by an `if`) never drops
a key. -/
theorem lookup_setKeyIf_isSome (p : Prop) [Decidable p] (fs : List (String × Json))
    (k k' : String) (v : Json) (h : (lookup fs k').isSome = true) :
    (lookup (if p then setKey fs k v else fs) k').isSome = true := by
  split
  · exact lookup_setKey_isSome fs k k' v h
  · exact h

/-- A conditional `setKey` leaves any other key's binding unchanged. -/
theorem lookup_setKeyIf_ne (p : Prop) [Decidable p] (fs : List (String × Json))
    (k k' : String) (v : Json) (h : k' ≠ k) :
    lookup (if p then setKey fs k v else fs) k' = lookup fs k' := by
  split
  · exact lookup_setKey_ne fs k k' v h
  · rfl

/-! ## Claims -/

/-- C1: whenever the stored token document holds a non-empty `access_token`
and a non-empty `refresh_token`, `get_access_token` issues the
refresh-token exchange before anything is returned (the stored access token
is never returned directly: a token is only returned on a 200 refresh
response), and on a 200 response the entire token document on disk is
replaced by the refresh response verbatim — the `saveToken` event carries
exactly the response body, so fields of the old document absent from the
response do not survive — and the response's `access_token` is returned. -/
theorem get_access_token_refresh_policy (tf cf : List (String × Json)) (a r : String)
    (ci cs' : Json) (rr : HttpResponse)
    (ha : lookup tf "access_token" = some (.str a)) (ha' : a ≠ "")
    (hr : lookup tf "refresh_token" = some (.str r)) (hr' : r ≠ "")
    (hci : lookup cf "client_id" = some ci) (hcs : lookup cf "client_secret" = some cs') :
    (∃ tl, (get_access_token (.obj tf) (.obj cf) rr).2 =
        Event.httpReq "POST token"
          [("grant_type", .str "refresh_token"), ("refresh_token", .str r)] :: tl) ∧
    (∀ x, (get_access_token (.obj tf) (.obj cf) rr).1 = .ok x → rr.status = 200) ∧
    (rr.status = 200 → ∀ nt, rr.json = some nt →
      get_access_token (.obj tf) (.obj cf) rr =
        ((match nt.subscript "access_token" with
          | some x => Outcome.ok x
          | none => Outcome.crash),
         [Event.httpReq "POST token"
            [("grant_type", .str "refresh_token"), ("refresh_token", .str r)],
          Event.saveToken nt])) := by
  have key := gat_refresh_eq tf cf a r ci cs' rr ha ha' hr hr' hci hcs
  refine ⟨?_, ?_, ?_⟩
  · rw [key]
    split
    · split
      · exact ⟨[], rfl⟩
      · split <;> exact ⟨_, rfl⟩
    · exact ⟨_, rfl⟩
  · intro x hx
    rw [key] at hx
    split at hx
    · next h => exact beq_iff_eq.mp h
    · simp at hx
  · intro h200 nt hj
    rw [key, hj]
    simp only [h200, beq_self_eq_true, if_true]
    split <;> rfl

/-- Witness for C1: a concrete refresh round-trip; the old document's
`extra` field does not survive the wholesale replacement. -/
theorem get_access_token_refresh_policy_witness :
    get_access_token
        (.obj [("access_token", .str "OLD"), ("refresh_token", .str "R"), ("extra", .num 1)])
        (.obj [("client_id", .str "CI"), ("client_secret", .str "CS")])
        ⟨200, "", some (.obj [("access_token", .str "NEW")])⟩ =
      (.ok (.str "NEW"),
       [.httpReq "POST token" [("grant_type", .str "refresh_token"), ("refresh_token", .str "R")],
        .saveToken (.obj [("access_token", .str "NEW")])]) := by
  have h := (get_access_token_refresh_policy
      [("access_token", .str "OLD"), ("refresh_token", .str "R"), ("extra", .num 1)]
      [("client_id", .str "CI"), ("client_secret", .str "CS")]
      "OLD" "R" (.str "CI") (.str "CS")
      ⟨200, "", some (.obj [("access_token", .str "NEW")])⟩
      rfl (by decide) rfl (by decide) rfl rfl).2.2 rfl
      (.obj [("access_token", .str "NEW")]) rfl
  exact h

/-- C2: every authenticated command (`info`, the four clock commands,
`status`, `available`) invoked with a token document that is empty or whose
`access_token` entry is missing (or falsy) exits with code 1, and its whole
effect trace is the single fatal print — so no HTTP request for the
intended operation and no refresh request is issued. -/
theorem commands_fail_without_token (tf : List (String × Json)) (config : Json)
    (rr ur er cr sr ar : HttpResponse) (c1 c2 : String) (ad : Option String) (ay : Bool)
    (now : Date)
    (h : optTruthy (lookup tf "access_token") = false) :
    cmd_info (.obj tf) config rr ur er c1 c2 = (.exit 1, [.print authMissingMsg]) ∧
    cmd_clock_in (.obj tf) config rr now cr = (.exit 1, [.print authMissingMsg]) ∧
    cmd_clock_out (.obj tf) config rr now cr = (.exit 1, [.print authMissingMsg]) ∧
    cmd_break_begin (.obj tf) config rr now cr = (.exit 1, [.print authMissingMsg]) ∧
    cmd_break_end (.obj tf) config rr now cr = (.exit 1, [.print authMissingMsg]) ∧
    cmd_status (.obj tf) config rr ad ay now sr = (.exit 1, [.print authMissingMsg]) ∧
    cmd_available (.obj tf) config rr now ar = (.exit 1, [.print authMissingMsg]) := by
  have hg := gat_no_token tf config rr h
  exact ⟨by simp [cmd_info, hg], by simp [cmd_clock_in, _clock, hg],
    by simp [cmd_clock_out, _clock, hg], by simp [cmd_break_begin, _clock, hg],
    by simp [cmd_break_end, _clock, hg], by simp [cmd_status, hg],
    by simp [cmd_available, hg]⟩

/-- Witness for C2: the `info` command on an empty token document. -/
theorem commands_fail_without_token_witness :
    cmd_info (.obj []) (.obj []) ⟨0, "", none⟩ ⟨0, "", none⟩ ⟨0, "", none⟩ "" "" =
      (.exit 1, [.print authMissingMsg]) := by
  exact (commands_fail_without_token [] (.obj []) ⟨0, "", none⟩ ⟨0, "", none⟩ ⟨0, "", none⟩
    ⟨0, "", none⟩ ⟨0, "", none⟩ ⟨0, "", none⟩ "" "" none false ⟨2024, 5, 1⟩ rfl).1

/-- C3: the timestamp reformatting maps `"2024-05-01T09:00:15Z"` to
`"09:00:15"`; for every string whose `Z`-normalised form is not a parseable
ISO timestamp the raw string is kept unchanged; a clock submission whose
200/201 response carries a string `datetime` completes with exit code 0 and
prints the success line with the (possibly fallback) reformatted time; and
each status line does the same for its event's string timestamp, the whole
status loop completing normally. -/
theorem timestamp_display :
    (formatClockTime "2024-05-01T09:00:15Z" = "09:00:15") ∧
    (∀ s : String, pyFromIso (pyReplace s "Z" "+00:00") = none → formatClockTime s = s) ∧
    (∀ (ct lbl : String) (token : Json) (cf : List (String × Json)) (rr : HttpResponse)
        (now : Date) (resp : HttpResponse) (tok : Json) (ev0 : List Event) (cid eid : Json)
        (s : String),
      get_access_token token (.obj cf) rr = (.ok tok, ev0) →
      lookup cf "company_id" = some cid → cid.truthy = true →
      lookup cf "employee_id" = some eid → eid.truthy = true →
      resp.status = 200 ∨ resp.status = 201 →
      resp.json = some (.obj [("datetime", .str s)]) →
      _clock ct lbl token (.obj cf) rr now resp =
        (.ok (), ev0 ++ [.httpReq "POST time_clocks"
            [("company_id", cid), ("type", .str ct), ("base_date", .str (fmtDate now))],
          .print ("✓ " ++ lbl ++ "打刻完了: " ++ formatClockTime s)])) ∧
    (∀ ty s : String, statusLine (.obj [("type", .str ty), ("datetime", .str s)]) =
      some ("  " ++ (match type_labels.find? (fun p => p.1 == ty) with
                     | some p => p.2
                     | none => ty) ++ ": " ++ formatClockTime s)) ∧
    (∀ l : List (String × String),
      statusLoop (l.map fun p => .obj [("type", .str p.1), ("datetime", .str p.2)]) =
        (.ok (), l.map fun p =>
          .print ("  " ++ (match type_labels.find? (fun q => q.1 == p.1) with
                           | some q => q.2
                           | none => p.1) ++ ": " ++ formatClockTime p.2))) := by
  refine ⟨by decide, ?_, ?_, statusLine_pair, statusLoop_pairs⟩
  · intro s h
    simp [formatClockTime, h]
  · intro ct lbl token cf rr now resp tok ev0 cid eid s hg hc hct he het hst hj
    have h := clock_success_trace ct lbl token cf [("datetime", .str s)] rr now resp tok ev0
      cid eid (some (.str s)) hg hc hct he het hst hj (by simp [lookup])
    rw [h]
    simp [displayTime_str]

/-- Witness for C3: the malformed-timestamp fallback at a concrete input,
and a concrete successful clock submission printing a reformatted time. -/
theorem timestamp_display_witness :
    formatClockTime "not-a-timestamp" = "not-a-timestamp" ∧
    _clock "clock_in" "出勤" (.obj [("access_token", .str "T")])
        (.obj [("company_id", .num 1), ("employee_id", .num 2)]) ⟨0, "", none⟩ ⟨2024, 5, 1⟩
        ⟨201, "", some (.obj [("datetime", .str "2024-05-01T08:59:59Z")])⟩ =
      (.ok (), [.httpReq "POST time_clocks"
          [("company_id", .num 1), ("type", .str "clock_in"), ("base_date", .str "2024-05-01")],
        .print ("✓ " ++ "出勤" ++ "打刻完了: " ++ formatClockTime "2024-05-01T08:59:59Z")]) := by
  constructor
  · exact timestamp_display.2.1 "not-a-timestamp" (by decide)
  · exact timestamp_display.2.2.1 "clock_in" "出勤" (.obj [("access_token", .str "T")])
      [("company_id", .num 1), ("employee_id", .num 2)] ⟨0, "", none⟩ ⟨2024, 5, 1⟩
      ⟨201, "", some (.obj [("datetime", .str "2024-05-01T08:59:59Z")])⟩ (.str "T") []
      (.num 1) (.num 2) "2024-05-01T08:59:59Z" rfl rfl rfl rfl rfl (Or.inr rfl) rfl

/-- C10: a clock submission whose 200/201 response body is a JSON object
without a `datetime` field (or with it set to the empty string) still
prints the success line with an empty time portion and completes with exit
code 0 — a missing timestamp on a successful submission is never an
error. -/
theorem clock_success_empty_datetime (ct lbl : String) (token : Json)
    (cf ef : List (String × Json)) (rr : HttpResponse) (now : Date) (resp : HttpResponse)
    (tok : Json) (ev0 : List Event) (cid eid : Json)
    (hg : get_access_token token (.obj cf) rr = (.ok tok, ev0))
    (hc : lookup cf "company_id" = some cid) (hct : cid.truthy = true)
    (he : lookup cf "employee_id" = some eid) (het : eid.truthy = true)
    (hst : resp.status = 200 ∨ resp.status = 201)
    (hj : resp.json = some (.obj ef))
    (hd : lookup ef "datetime" = none ∨ lookup ef "datetime" = some (.str "")) :
    _clock ct lbl token (.obj cf) rr now resp =
      (.ok (), ev0 ++ [.httpReq "POST time_clocks"
          [("company_id", cid), ("type", .str ct), ("base_date", .str (fmtDate now))],
        .print ("✓ " ++ lbl ++ "打刻完了: " ++ "")]) := by
  have hdt : displayTime (Json.str "") = some "" := by decide
  rcases hd with hd | hd
  · have h := clock_success_trace ct lbl token cf ef rr now resp tok ev0 cid eid none
      hg hc hct he het hst hj hd
    rw [h]
    simp [hdt]
  · have h := clock_success_trace ct lbl token cf ef rr now resp tok ev0 cid eid
      (some (.str "")) hg hc hct he het hst hj hd
    rw [h]
    simp [hdt]

/-- Witness for C10: a concrete 200 response with no `datetime` field. -/
theorem clock_success_empty_datetime_witness :
    _clock "clock_out" "退勤" (.obj [("access_token", .str "T")])
        (.obj [("company_id", .num 1), ("employee_id", .num 2)]) ⟨0, "", none⟩ ⟨2024, 5, 1⟩
        ⟨200, "", some (.obj [("employee_time_clock_id", .num 7)])⟩ =
      (.ok (), [.httpReq "POST time_clocks"
          [("company_id", .num 1), ("type", .str "clock_out"), ("base_date", .str "2024-05-01")],
        .print ("✓ " ++ "退勤" ++ "打刻完了: " ++ "")]) := by
  exact clock_success_empty_datetime "clock_out" "退勤" (.obj [("access_token", .str "T")])
    [("company_id", .num 1), ("employee_id", .num 2)] [("employee_time_clock_id", .num 7)]
    ⟨0, "", none⟩ ⟨2024, 5, 1⟩ ⟨200, "", some (.obj [("employee_time_clock_id", .num 7)])⟩
    (.str "T") [] (.num 1) (.num 2) rfl rfl rfl rfl rfl (Or.inl rfl) rfl (Or.inl rfl)

/-- C4: the status query behaves identically — same outcome and same full
effect trace, so in particular the same printed event lines — whether the
response body is the bare list `L` or the object wrapping `L` under
`items`, for every list `L` and whatever the rest of the run looks like. -/
theorem status_bare_vs_wrapped (token config : Json) (rr : HttpResponse)
    (ad : Option String) (ay : Bool) (now : Date) (st : Nat) (txt : String) (L : List Json) :
    cmd_status token config rr ad ay now ⟨st, txt, some (.arr L)⟩ =
      cmd_status token config rr ad ay now ⟨st, txt, some (.obj [("items", .arr L)])⟩ := by
  have hs : statusItems (.obj [("items", .arr L)]) = statusItems (.arr L) := by
    simp [statusItems, lookup]
  simp only [cmd_status]
  rcases get_access_token token config rr with ⟨o, ev0⟩
  cases o with
  | exit c => rfl
  | crash => rfl
  | ok tok =>
    cases config with
    | obj cf =>
      dsimp only
      rw [hs]
    | null => rfl
    | bool b => rfl
    | num n => rfl
    | str s => rfl
    | arr xs => rfl

/-- C6 counterexample: an explicitly given `--date ""` is not used.  The
script's `if args.date:` truthiness test treats the empty explicit date as
absent, so with `--yesterday` also set on local date 2024-05-02 the target
becomes `"2024-05-01"`, not the given (empty) date. -/
theorem targetDate_empty_date_cex :
    targetDate (some "") true ⟨2024, 5, 2⟩ = "2024-05-01" ∧
    targetDate (some "") true ⟨2024, 5, 2⟩ ≠ "" := by
  decide

/-- C6 (amended): a *non-empty* explicit `--date` is used even when
`--yesterday` is also given, while an empty explicit date behaves exactly
as an absent one; with only `--yesterday` the target is the previous
calendar day (2024-05-01 when the local date is 2024-05-02); otherwise the
target is the current local date; and in every run that reaches the query,
the issued request has `from_date` = `to_date` = the target date. -/
theorem targetDate_selection :
    (∀ (d : String) (y : Bool) (now : Date), d ≠ "" → targetDate (some d) y now = d) ∧
    (∀ (y : Bool) (now : Date), targetDate (some "") y now = targetDate none y now) ∧
    (∀ now : Date, targetDate none true now = fmtDate (prevDay now)) ∧
    (targetDate none true ⟨2024, 5, 2⟩ = "2024-05-01") ∧
    (∀ now : Date, targetDate none false now = fmtDate now) ∧
    (∀ (token : Json) (cf : List (String × Json)) (rr : HttpResponse) (ad : Option String)
        (ay : Bool) (now : Date) (sr : HttpResponse) (tok : Json) (ev0 : List Event)
        (cid eid : Json),
      get_access_token token (.obj cf) rr = (.ok tok, ev0) →
      lookup cf "company_id" = some cid → cid.truthy = true →
      lookup cf "employee_id" = some eid → eid.truthy = true →
      Event.httpReq "GET time_clocks"
          [("company_id", cid), ("from_date", .str (targetDate ad ay now)),
           ("to_date", .str (targetDate ad ay now))] ∈
        (cmd_status token (.obj cf) rr ad ay now sr).2) := by
  refine ⟨?_, ?_, fun _ => rfl, by decide, fun _ => rfl, ?_⟩
  · intro d y now hd
    simp [targetDate, hd]
  · intro y now
    simp [targetDate]
  · intro token cf rr ad ay now sr tok ev0 cid eid hg hc hct he het
    simp only [cmd_status, hg, hc, he, optTruthy, hct, het, Bool.not_true, Bool.or_self]
    simp only [Bool.false_eq_true, if_false]
    split <;> try simp
    split <;> try simp
    split <;> try simp
    split <;> try simp
    split <;> simp

/-- Witness for C6's amended theorem: a concrete non-empty explicit date
wins over the yesterday flag. -/
theorem targetDate_selection_witness :
    targetDate (some "2024-01-02") true ⟨2024, 5, 2⟩ = "2024-01-02" := by
  exact targetDate_selection.1 "2024-01-02" true ⟨2024, 5, 2⟩ (by decide)

/-- C7 counterexample: on a 422 response whose body is not JSON at all, the
command does not print any error message built from the raw body — the
uncaught `response.json()` decode error terminates it with a bare
traceback: the trace holds the POST only, with no print event. -/
theorem clock_nonjson_error_cex :
    _clock "clock_in" "出勤" (.obj [("access_token", .str "T")])
        (.obj [("company_id", .num 1), ("employee_id", .num 2)]) ⟨0, "", none⟩ ⟨2024, 5, 1⟩
        ⟨422, "oops", none⟩ =
      (.crash, [.httpReq "POST time_clocks"
          [("company_id", .num 1), ("type", .str "clock_in"), ("base_date", .str "2024-05-01")]]) := by
  rfl

/-- C7 (amended): for a clock-submission response with status other than
200/201 *whose body parses as a JSON object*, the printed error message
prefers the `message` field, falls back to the `errors` field, and falls
back to the raw body text, and the command exits 1; when the body is not
JSON at all the command instead dies on the uncaught decode error without
printing a message (still a non-zero process exit, but no formatted error
line).  On HTTP 201 with body containing `datetime` 2024-05-01T08:59:59Z
the success line contains `08:59:59` and the command exits 0. -/
theorem clock_error_selection :
    (∀ (ct lbl : String) (token : Json) (cf ef : List (String × Json)) (rr : HttpResponse)
        (now : Date) (resp : HttpResponse) (tok : Json) (ev0 : List Event) (cid eid : Json),
      get_access_token token (.obj cf) rr = (.ok tok, ev0) →
      lookup cf "company_id" = some cid → cid.truthy = true →
      lookup cf "employee_id" = some eid → eid.truthy = true →
      resp.status ≠ 200 → resp.status ≠ 201 →
      resp.json = some (.obj ef) →
      _clock ct lbl token (.obj cf) rr now resp =
        (.exit 1, ev0 ++ [.httpReq "POST time_clocks"
            [("company_id", cid), ("type", .str ct), ("base_date", .str (fmtDate now))],
          .print ("✗ " ++ lbl ++ "打刻失敗: " ++ pyStr (clockErrorMsg ef resp.text))])) ∧
    (∀ (ef : List (String × Json)) (txt : String),
      (∀ v, lookup ef "message" = some v → clockErrorMsg ef txt = v) ∧
      (lookup ef "message" = none → ∀ v, lookup ef "errors" = some v → clockErrorMsg ef txt = v) ∧
      (lookup ef "message" = none → lookup ef "errors" = none →
        clockErrorMsg ef txt = .str txt)) ∧
    (∀ (ct lbl : String) (token : Json) (cf : List (String × Json)) (rr : HttpResponse)
        (now : Date) (resp : HttpResponse) (tok : Json) (ev0 : List Event) (cid eid : Json),
      get_access_token token (.obj cf) rr = (.ok tok, ev0) →
      lookup cf "company_id" = some cid → cid.truthy = true →
      lookup cf "employee_id" = some eid → eid.truthy = true →
      resp.status ≠ 200 → resp.status ≠ 201 →
      resp.json = none →
      _clock ct lbl token (.obj cf) rr now resp =
        (.crash, ev0 ++ [.httpReq "POST time_clocks"
            [("company_id", cid), ("type", .str ct), ("base_date", .str (fmtDate now))]])) ∧
    (_clock "clock_in" "出勤" (.obj [("access_token", .str "T")])
        (.obj [("company_id", .num 1), ("employee_id", .num 2)]) ⟨0, "", none⟩ ⟨2024, 5, 1⟩
        ⟨201, "", some (.obj [("datetime", .str "2024-05-01T08:59:59Z")])⟩ =
      (.ok (), [.httpReq "POST time_clocks"
          [("company_id", .num 1), ("type", .str "clock_in"), ("base_date", .str "2024-05-01")],
        .print "✓ 出勤打刻完了: 08:59:59"])) := by
  refine ⟨?_, ?_, ?_, by rfl⟩
  · intro ct lbl token cf ef rr now resp tok ev0 cid eid hg hc hct he het h200 h201 hj
    rw [clock_error_trace ct lbl token cf rr now resp tok ev0 cid eid hg hc hct he het
      h200 h201, hj]
  · intro ef txt
    refine ⟨?_, ?_, ?_⟩
    · intro v h
      simp [clockErrorMsg, h]
    · intro h v h2
      simp [clockErrorMsg, h, h2]
    · intro h1 h2
      simp [clockErrorMsg, h1, h2]
  · intro ct lbl token cf rr now resp tok ev0 cid eid hg hc hct he het h200 h201 hj
    rw [clock_error_trace ct lbl token cf rr now resp tok ev0 cid eid hg hc hct he het
      h200 h201, hj]

/-- Witness for C7's amended theorem: a concrete 422 with a `message`
field. -/
theorem clock_error_selection_witness :
    _clock "clock_in" "出勤" (.obj [("access_token", .str "T")])
        (.obj [("company_id", .num 1), ("employee_id", .num 2)]) ⟨0, "", none⟩ ⟨2024, 5, 1⟩
        ⟨422, "raw", some (.obj [("message", .str "already clocked in")])⟩ =
      (.exit 1, [.httpReq "POST time_clocks"
          [("company_id", .num 1), ("type", .str "clock_in"), ("base_date", .str "2024-05-01")],
        .print ("✗ " ++ "出勤" ++ "打刻失敗: " ++
          pyStr (clockErrorMsg [("message", .str "already clocked in")] "raw"))]) := by
  exact clock_error_selection.1 "clock_in" "出勤" (.obj [("access_token", .str "T")])
    [("company_id", .num 1), ("employee_id", .num 2)] [("message", .str "already clocked in")]
    ⟨0, "", none⟩ ⟨2024, 5, 1⟩ ⟨422, "raw", some (.obj [("message", .str "already clocked in")])⟩
    (.str "T") [] (.num 1) (.num 2) rfl rfl rfl rfl rfl (by decide) (by decide) rfl

/-- C8 counterexample: the entered choice `"0"` is not the 1-based index of
any listed entry, yet the organization picker does not fail: Python's
negative indexing (`int("0") - 1 = -1`) selects the *last* listed
organization, and the command proceeds to persist its id (20) together
with the auto-selected employee id. -/
theorem info_picker_zero_choice_cex :
    pickEntry [.obj [("name", .str "A"), ("id", .num 10)],
               .obj [("name", .str "B"), ("id", .num 20)]] "0" =
      some (.obj [("name", .str "B"), ("id", .num 20)]) ∧
    (cmd_info (.obj [("access_token", .str "T")]) (.obj []) ⟨0, "", none⟩
        ⟨200, "", some (.obj [("companies", .arr [
           .obj [("name", .str "A"), ("id", .num 10)],
           .obj [("name", .str "B"), ("id", .num 20)]])])⟩
        ⟨200, "", some (.obj [("employees", .arr [
           .obj [("display_name", .str "Me"), ("id", .num 30)]])])⟩
        "0" "").1 = Outcome.ok () ∧
    savedConfigs (cmd_info (.obj [("access_token", .str "T")]) (.obj []) ⟨0, "", none⟩
        ⟨200, "", some (.obj [("companies", .arr [
           .obj [("name", .str "A"), ("id", .num 10)],
           .obj [("name", .str "B"), ("id", .num 20)]])])⟩
        ⟨200, "", some (.obj [("employees", .arr [
           .obj [("display_name", .str "Me"), ("id", .num 30)]])])⟩
        "0" "").2 = [[("company_id", .num 20), ("employee_id", .num 30)]] := by
  exact ⟨rfl, rfl, rfl⟩

/-- C8 (amended): in the pickers, a non-numeric choice is an unrecovered
fatal error, as is a numeric choice `c` with `c > n` or `c ≤ -n` (index
out of Python's range) — and with such a choice the command crashes
without persisting anything; but numeric choices `1..n` select entry `c`
and choices `1-n..0` select entry `n+c` through negative indexing, so not
every choice outside `1..n` is fatal. -/
theorem picker_bounds :
    (∀ (entries : List Json) (choice : String),
      pyInt? (pyStrip choice) = none → pickEntry entries choice = none) ∧
    (∀ (entries : List Json) (choice : String) (c : Int),
      pyInt? (pyStrip choice) = some c →
      ((entries.length : Int) < c ∨ c ≤ -(entries.length : Int)) →
      pickEntry entries choice = none) ∧
    (∀ (entries : List Json) (choice : String) (c : Int),
      pyInt? (pyStrip choice) = some c → 1 ≤ c → c ≤ (entries.length : Int) →
      ∃ e, pickEntry entries choice = some e ∧ entries.get? (c - 1).toNat = some e) ∧
    (∀ (entries : List Json) (choice : String) (c : Int),
      pyInt? (pyStrip choice) = some c → -(entries.length : Int) < c → c ≤ 0 →
      pickEntry entries choice = entries.get? (c - 1 + entries.length).toNat) ∧
    ((cmd_info (.obj [("access_token", .str "T")]) (.obj []) ⟨0, "", none⟩
        ⟨200, "", some (.obj [("companies", .arr [
           .obj [("name", .str "A"), ("id", .num 10)],
           .obj [("name", .str "B"), ("id", .num 20)]])])⟩
        ⟨200, "", none⟩ "3" "").1 = Outcome.crash ∧
      savedConfigs (cmd_info (.obj [("access_token", .str "T")]) (.obj []) ⟨0, "", none⟩
        ⟨200, "", some (.obj [("companies", .arr [
           .obj [("name", .str "A"), ("id", .num 10)],
           .obj [("name", .str "B"), ("id", .num 20)]])])⟩
        ⟨200, "", none⟩ "3" "").2 = []) := by
  refine ⟨?_, ?_, ?_, ?_, rfl, rfl⟩
  · intro entries choice h
    simp [pickEntry, h]
  · intro entries choice c h hout
    simp only [pickEntry, h, pyIndex]
    rcases hout with hgt | hle
    · rw [if_pos (by omega)]
      exact List.get?_eq_none.mpr (by omega)
    · rw [if_neg (by omega), if_neg (by omega)]
  · intro entries choice c h h1 h2
    have hlt : (c - 1).toNat < entries.length := by omega
    refine ⟨entries.get ⟨(c - 1).toNat, hlt⟩, ?_, List.get?_eq_get hlt⟩
    simp only [pickEntry, h, pyIndex]
    rw [if_pos (by omega)]
    exact List.get?_eq_get hlt
  · intro entries choice c h h1 h2
    simp only [pickEntry, h, pyIndex]
    rw [if_neg (by omega), if_pos (by omega)]

/-- Witness for C8's amended theorem: a non-numeric choice is fatal. -/
theorem picker_bounds_witness :
    pickEntry [Json.null, Json.null] "banana" = none := by
  exact picker_bounds.1 [Json.null, Json.null] "banana" (by decide)

/-- C9 counterexample: a run in which the organization is selected (the
single organization, id 10, is auto-picked) and the employees-list request
is issued and fails — yet the trace contains no config write at all, so
nothing was persisted before the employees request and the persisted
config does not contain the new `company_id`. -/
theorem info_persist_order_cex :
    (cmd_info (.obj [("access_token", .str "T")]) (.obj []) ⟨0, "", none⟩
        ⟨200, "", some (.obj [("companies", .arr [.obj [("name", .str "A"), ("id", .num 10)]])])⟩
        ⟨500, "boom", none⟩ "" "").1 = Outcome.exit 1 ∧
    hasReq "GET employees" (cmd_info (.obj [("access_token", .str "T")]) (.obj []) ⟨0, "", none⟩
        ⟨200, "", some (.obj [("companies", .arr [.obj [("name", .str "A"), ("id", .num 10)]])])⟩
        ⟨500, "boom", none⟩ "" "").2 = true ∧
    savedConfigs (cmd_info (.obj [("access_token", .str "T")]) (.obj []) ⟨0, "", none⟩
        ⟨200, "", some (.obj [("companies", .arr [.obj [("name", .str "A"), ("id", .num 10)]])])⟩
        ⟨500, "boom", none⟩ "" "").2 = [] := by
  exact ⟨rfl, rfl, rfl⟩

/-- C9 (amended): `cmd_info` writes the config file only once, at the very
end, after the employee id is also resolved; in *every* run where the
employees-list request returns a non-200 status (or that aborts earlier),
no config write happens at all, so the persisted document keeps its prior
content and in particular gains no new `company_id`. -/
theorem info_no_save_on_employees_failure (token config : Json) (rr ur er : HttpResponse)
    (c1 c2 : String) (h : er.status ≠ 200) :
    savedConfigs (cmd_info token config rr ur er c1 c2).2 = [] := by
  simp only [cmd_info]
  rcases hga : get_access_token token config rr with ⟨o, ev0⟩
  have h0 : savedConfigs ev0 = [] := by
    have h' := gat_no_save token config rr
    rw [hga] at h'
    exact h'
  cases o with
  | exit c => exact h0
  | crash => exact h0
  | ok tok =>
    repeat' split
    all_goals simp_all [savedConfigs_append, savedConfigs_cons_print, savedConfigs_cons_req,
      savedConfigs_cons_tok, savedConfigs_cons_save, savedConfigs_nil, companiesLoop_no_save,
      employeesLoop_no_save]

/-- Witness for C9's amended theorem: the concrete failing-employees run. -/
theorem info_no_save_on_employees_failure_witness :
    savedConfigs (cmd_info (.obj [("access_token", .str "T")]) (.obj []) ⟨0, "", none⟩
        ⟨200, "", some (.obj [("companies", .arr [.obj [("name", .str "A"), ("id", .num 10)]])])⟩
        ⟨500, "boom", none⟩ "" "").2 = [] := by
  exact info_no_save_on_employees_failure (.obj [("access_token", .str "T")]) (.obj [])
    ⟨0, "", none⟩ ⟨200, "", some (.obj [("companies", .arr [.obj [("name", .str "A"), ("id", .num 10)]])])⟩
    ⟨500, "boom", none⟩ "" "" (by decide)

/-- C5: every config document persisted by the setup or info command binds
a superset of the previously persisted document's keys: each key present
before is still present, with its prior value unless it is one of the keys
the command explicitly overwrites (`client_id`/`client_secret` for setup —
and only when a new non-empty value was entered — and
`company_id`/`employee_id` for info). -/
theorem config_writes_preserve_keys :
    (∀ (cf : List (String × Json)) (idIn secIn : String) (c : List (String × Json)),
      c ∈ savedConfigs (cmd_setup (.obj cf) idIn secIn).2 →
      (∀ k, (lookup cf k).isSome = true → (lookup c k).isSome = true) ∧
      (∀ k, k ≠ "client_id" → k ≠ "client_secret" → lookup c k = lookup cf k) ∧
      (pyStrip idIn = "" → lookup c "client_id" = lookup cf "client_id") ∧
      (pyStrip secIn = "" → lookup c "client_secret" = lookup cf "client_secret")) ∧
    (∀ (token : Json) (cf : List (String × Json)) (rr ur er : HttpResponse) (c1 c2 : String)
        (c : List (String × Json)),
      c ∈ savedConfigs (cmd_info token (.obj cf) rr ur er c1 c2).2 →
      (∀ k, (lookup cf k).isSome = true → (lookup c k).isSome = true) ∧
      (∀ k, k ≠ "company_id" → k ≠ "employee_id" → lookup c k = lookup cf k)) := by
  constructor
  · intro cf idIn secIn c hmem
    simp only [cmd_setup] at hmem
    split at hmem
    · simp [savedConfigs_append, savedConfigs_cons_print, savedConfigs_nil] at hmem
    · simp only [savedConfigs_append, savedConfigs_cons_print, savedConfigs_cons_save,
        savedConfigs_nil, List.append_nil, List.nil_append, List.mem_singleton,
        List.cons_append] at hmem
      subst hmem
      refine ⟨?_, ?_, ?_, ?_⟩
      · intro k hk
        simp only [setupMerged]
        exact lookup_setKeyIf_isSome _ _ _ _ _ (lookup_setKeyIf_isSome _ _ _ _ _ hk)
      · intro k hk1 hk2
        simp only [setupMerged]
        rw [lookup_setKeyIf_ne _ _ _ _ _ hk2, lookup_setKeyIf_ne _ _ _ _ _ hk1]
      · intro hid
        simp only [setupMerged]
        rw [lookup_setKeyIf_ne _ _ _ _ _ (by decide : ("client_id" : String) ≠ "client_secret")]
        rw [if_neg (by simp [hid])]
      · intro hsec
        simp only [setupMerged]
        rw [if_neg (by simp [hsec])]
        exact lookup_setKeyIf_ne _ _ _ _ _ (by decide)
  · intro token cf rr ur er c1 c2 c hmem
    simp only [cmd_info] at hmem
    rcases hga : get_access_token token (.obj cf) rr with ⟨o, ev0⟩
    rw [hga] at hmem
    have h0 : savedConfigs ev0 = [] := by
      have h' := gat_no_save token (.obj cf) rr
      rw [hga] at h'
      exact h'
    cases o with
    | exit cc =>
      dsimp only at hmem
      rw [h0] at hmem
      exact absurd hmem (List.not_mem_nil c)
    | crash =>
      dsimp only at hmem
      rw [h0] at hmem
      exact absurd hmem (List.not_mem_nil c)
    | ok tok =>
      dsimp only at hmem
      repeat' split at hmem
      all_goals
        try simp only [savedConfigs_append, savedConfigs_cons_print, savedConfigs_cons_req,
          savedConfigs_cons_tok, savedConfigs_cons_save, savedConfigs_nil, h0,
          companiesLoop_no_save, employeesLoop_no_save, List.append_nil, List.nil_append,
          List.mem_singleton, List.not_mem_nil] at hmem
      subst hmem
      refine ⟨?_, ?_⟩
      · intro k hk
        exact lookup_setKey_isSome _ _ _ _ (lookup_setKey_isSome _ _ _ _ hk)
      · intro k hk1 hk2
        rw [lookup_setKey_ne _ _ _ _ hk2, lookup_setKey_ne _ _ _ _ hk1]

/-- Witness for C5: a concrete setup run over a config holding an
unrelated key `foo`; the persisted document still binds `foo` to its old
value. -/
theorem config_writes_preserve_keys_witness :
    lookup [("foo", Json.null), ("client_id", Json.str "id"), ("client_secret", Json.str "sec")]
        "foo" =
      lookup [("foo", Json.null)] "foo" := by
  have hmem : [("foo", Json.null), ("client_id", Json.str "id"), ("client_secret", Json.str "sec")] ∈
      savedConfigs (cmd_setup (.obj [("foo", Json.null)]) "id" "sec").2 := by
    have he : savedConfigs (cmd_setup (.obj [("foo", Json.null)]) "id" "sec").2 =
        [[("foo", Json.null), ("client_id", Json.str "id"), ("client_secret", Json.str "sec")]] :=
      rfl
    rw [he]
    exact List.mem_singleton.mpr rfl
  exact (config_writes_preserve_keys.1 [("foo", Json.null)] "id" "sec" _ hmem).2.1 "foo"
    (by decide) (by decide)

end FreeeKintai
